import Mathlib

/-!
# Out-of-band discovery and manual bootstrap sequencing

A shallow embedding of `pkg/kubelet/discovery.go` and `pkg/kubeadm/manual.go`.

* Go errors are values carrying the text of their `Error()` method; `nil` is `none`.
* Calls that leave the process (`ioutil.ReadFile`, `x509.ParseCertificate`, the three
  provisioning steps, `out.Write`) are recorded in a trace, so that "is not invoked"
  and "writes nothing else" are statements about the trace.
* Pointers are addresses into an explicit heap.
-/

/-- A Go `error` value, identified with the text its `Error()` method returns. -/
structure GoError where
  Error : String
deriving DecidableEq, Repr

/-- The contents of a file, `[]byte`. -/
abbrev Bytes := List Nat

namespace kubelet

/-- The struct `DiscoveryBase` of discovery.go. -/
structure DiscoveryBase where
  ApiVersion : String
  Role : String
deriving DecidableEq, Repr

/-- The struct `OutOfBandDiscovery` of discovery.go (embedding `DiscoveryBase`). -/
structure OutOfBandDiscovery where
  toDiscoveryBase : DiscoveryBase
  ApiServerURLs : String
  CaCertFile : String
deriving DecidableEq, Repr

/-- The struct `GossipDiscovery` of discovery.go (embedding `DiscoveryBase`). -/
structure GossipDiscovery where
  toDiscoveryBase : DiscoveryBase
  Token : String
  Peers : String
deriving DecidableEq, Repr

/-- The Go values that occur in the first position of the `return` statements of
`Discover`: the composite literal `[]string{}` is a slice, while the selector
`o.ApiServerURLs` is the `string` field itself. -/
inductive GoValue where
  | string (s : String)
  | stringSlice (xs : List String)
deriving DecidableEq, Repr

/-- A filesystem snapshot: what `ioutil.ReadFile` yields for each path. -/
abbrev FileSystem := String → Except GoError Bytes

/-- The function `x509.ParseCertificate` of the Go standard library, over certificates
of type `C`. -/
abbrev CertParser (C : Type) := Bytes → Except GoError C

/-- The calls `Discover` makes outside the package, in order. -/
inductive Call where
  | ReadFile (filename : String)
  | ParseCertificate (asn1Data : Bytes)
deriving DecidableEq, Repr

/-- The three results of `Discover() ([]string, *x509.Certificate, error)`. -/
structure DiscoverResult (C : Type) where
  apiServerUrls : GoValue
  caCert : Option C
  err : Option GoError
deriving DecidableEq, Repr

/-- What a call of `Discover` leaves behind: its results, the receiver variable `o` and
the filesystem as they are at the `return`, and the external calls made. -/
structure DiscoverOutcome (C : Type) where
  result : DiscoverResult C
  o : OutOfBandDiscovery
  fs : FileSystem
  calls : List Call

/-- The function `ioutil.ReadFile`: reads the snapshot and leaves it as it is. -/
def ioutil.ReadFile (fs : FileSystem) (filename : String) : Except GoError Bytes × FileSystem :=
  (fs filename, fs)

/-- The method `func (o OutOfBandDiscovery) Start()`: a no-op. -/
def OutOfBandDiscovery.Start (o : OutOfBandDiscovery) : OutOfBandDiscovery := o

/-- The method `func (o OutOfBandDiscovery) Discover()`. -/
def OutOfBandDiscovery.Discover {C : Type} (ParseCertificate : CertParser C)
    (o : OutOfBandDiscovery) (fs : FileSystem) : DiscoverOutcome C :=
  match ioutil.ReadFile fs o.CaCertFile with
  | (.error err, fs1) =>
    ⟨⟨.stringSlice [], none, some err⟩, o, fs1, [.ReadFile o.CaCertFile]⟩
  | (.ok asn1Data, fs1) =>
    match ParseCertificate asn1Data with
    | .error err =>
      ⟨⟨.stringSlice [], none, some err⟩, o, fs1,
        [.ReadFile o.CaCertFile, .ParseCertificate asn1Data]⟩
    | .ok caCert =>
      ⟨⟨.string o.ApiServerURLs, some caCert, none⟩, o, fs1,
        [.ReadFile o.CaCertFile, .ParseCertificate asn1Data]⟩

/-- The names of the discovery types declared in discovery.go. -/
inductive TypeName where
  | OutOfBandDiscovery
  | GossipDiscovery
deriving DecidableEq, Repr

/-- The method names of the interface `Discovery`. -/
inductive MethodName where
  | Start
  | Discover
deriving DecidableEq, Repr

/-- The methods the interface `Discovery` asks for. -/
def Discovery : List MethodName := [.Start, .Discover]

/-- The methods declared in discovery.go with each type as receiver: two for
`OutOfBandDiscovery`, none for `GossipDiscovery` (only the TODO comment above it). -/
def methodSet : TypeName → List MethodName
  | .OutOfBandDiscovery => [.Start, .Discover]
  | .GossipDiscovery => []

/-- Whether a type satisfies the interface `Discovery`. -/
def implementsDiscovery (t : TypeName) : Bool :=
  Discovery.all (fun m => decide (m ∈ methodSet t))

/-- A value of one of the two discovery types. -/
inductive DiscoveryValue where
  | outOfBand (o : OutOfBandDiscovery)
  | gossip (g : GossipDiscovery)

/-- The type of a discovery value. -/
def DiscoveryValue.typeName : DiscoveryValue → TypeName
  | .outOfBand _ => .OutOfBandDiscovery
  | .gossip _ => .GossipDiscovery

/-- The selector expression `v.Discover()`: the declared method when the type of `v`
has one, and nothing to call (`none`) when it has not. -/
def DiscoveryValue.callDiscover {C : Type} (ParseCertificate : CertParser C)
    (v : DiscoveryValue) (fs : FileSystem) : Option (DiscoverOutcome C) :=
  match v with
  | .outOfBand o => some (o.Discover ParseCertificate fs)
  | .gossip _ => none

/-- The split of the spec, on characters: the entries of a comma-separated list, in
order, each as written; `acc` holds the current entry, reversed. -/
def splitAux : List Char → List Char → List String
  | acc, [] => [String.mk acc.reverse]
  | acc, c :: cs =>
    if c = ',' then String.mk acc.reverse :: splitAux [] cs else splitAux (c :: acc) cs

/-- The endpoint sequence the spec describes: `apiServerURLs` split on commas. -/
def specEndpoints (apiServerURLs : String) : List String :=
  splitAux [] apiServerURLs.data

/-- A filesystem with a certificate file, a file that is no certificate, and nothing
else. -/
def sampleFS : FileSystem := fun filename =>
  if filename = "/tmp/ca.der" then .ok [48, 130, 1, 10]
  else if filename = "/tmp/notes.txt" then .ok [104, 105]
  else .error ⟨"open " ++ filename ++ ": no such file or directory"⟩

/-- A parser that takes the bytes as the certificate when they start with the DER
sequence tag, and fails otherwise. -/
def sampleParser : CertParser Bytes := fun asn1Data =>
  if asn1Data.head? = some 48 then .ok asn1Data else .error ⟨"asn1: structure error"⟩

/-- A node's discovery with two API servers. -/
def sampleDiscovery (caCertFile : String) : OutOfBandDiscovery :=
  ⟨⟨"v1alpha1", "node"⟩, "https://10.0.0.1:6443/,https://10.0.0.2:6443/", caCertFile⟩

end kubelet

namespace kubeadm

/-- The struct `OutOfBandDiscovery` of manual.go. -/
structure OutOfBandDiscovery where
  ApiServerURLs : String
  CaCertFile : String
  ApiServerDNSName : String
  ListenIP : String
deriving DecidableEq, Repr

/-- The address of an `OutOfBandDiscovery` object: a value of type `*OutOfBandDiscovery`. -/
abbrev Addr := Nat

/-- The store of `OutOfBandDiscovery` objects: the object at each address, and the next
address `&OutOfBandDiscovery{...}` hands out. -/
structure Heap where
  cells : Addr → OutOfBandDiscovery
  next : Addr

/-- The composite literal `&OutOfBandDiscovery{...}`: a fresh object and its address. -/
def Heap.alloc (h : Heap) (d : OutOfBandDiscovery) : Addr × Heap :=
  (h.next, ⟨fun a => if a = h.next then d else h.cells a, h.next + 1⟩)

/-- The string fields of `OutOfBandDiscovery`. -/
inductive Field where
  | ApiServerURLs
  | CaCertFile
  | ApiServerDNSName
  | ListenIP
deriving DecidableEq, Repr

/-- Assignment to one field of an object. -/
def OutOfBandDiscovery.set (d : OutOfBandDiscovery) (f : Field) (v : String) :
    OutOfBandDiscovery :=
  match f with
  | .ApiServerURLs => ⟨v, d.CaCertFile, d.ApiServerDNSName, d.ListenIP⟩
  | .CaCertFile => ⟨d.ApiServerURLs, v, d.ApiServerDNSName, d.ListenIP⟩
  | .ApiServerDNSName => ⟨d.ApiServerURLs, d.CaCertFile, v, d.ListenIP⟩
  | .ListenIP => ⟨d.ApiServerURLs, d.CaCertFile, d.ApiServerDNSName, v⟩

/-- A value of type `*string` of the form `&discovery.F`. -/
structure StringVar where
  discovery : Addr
  field : Field
deriving DecidableEq, Repr

/-- The assignment `*p = v`. -/
def Heap.store (h : Heap) (p : StringVar) (v : String) : Heap :=
  ⟨fun a => if a = p.discovery then (h.cells a).set p.field v else h.cells a, h.next⟩

/-- Modelled from the spec: the roles `Master` and `Node` of the spec's
BootstrapParameters, whose declaration manual.go does not hold. -/
inductive Role where
  | Master
  | Node
deriving DecidableEq, Repr

/-- Modelled from the spec: the declaration of the struct `BootstrapParams`, which
manual.go uses and does not declare. The spec gives it a role and a discovery; manual.go
assigns a `*OutOfBandDiscovery` to the field `Discovery`, so the field holds an address
or `nil`. -/
structure BootstrapParams where
  role : Role
  Discovery : Option Addr
deriving DecidableEq, Repr

/-- Everything the provisioning steps can reach through `params`, and the world outside
the process (of type `W`: the manifest directory, the PKI files, the kubeconfig). -/
structure Memory (W : Type) where
  heap : Heap
  params : BootstrapParams
  world : W

/-- The object `params.Discovery` points to, if it is not `nil`. -/
def Memory.discovery {W : Type} (m : Memory W) : Option OutOfBandDiscovery :=
  m.params.Discovery.map m.heap.cells

/-- The three functions of package kubeadm that manual.go calls with `params` and that
are declared outside it: each returns an error or `nil` and may change whatever it can
reach. -/
structure Steps (W : Type) where
  writeStaticPodManifests : Memory W → Option GoError × Memory W
  generateAndWritePKIAndConfig : Memory W → Option GoError × Memory W
  writeKubeconfigIfNotExists : Memory W → Option GoError × Memory W

/-- The names of the three provisioning steps. -/
inductive Step where
  | writeStaticPodManifests
  | generateAndWritePKIAndConfig
  | writeKubeconfigIfNotExists
deriving DecidableEq, Repr

/-- What a run does that can be observed: the calls of the provisioning steps and the
calls `out.Write(p)`, in order. -/
inductive Event where
  | call (f : Step)
  | Write (p : String)
deriving DecidableEq, Repr

/-- The state of a run. -/
structure State (W : Type) where
  mem : Memory W
  trace : List Event

/-- The statement `out.Write([]byte(p))`. -/
def State.Write {W : Type} (s : State W) (p : String) : State W :=
  ⟨s.mem, s.trace ++ [.Write p]⟩

/-- A call `f(params)` of a provisioning step: the step runs on the memory and the call
is recorded. -/
def State.call {W : Type} (s : State W) (name : Step)
    (f : Memory W → Option GoError × Memory W) : Option GoError × State W :=
  ((f s.mem).1, ⟨(f s.mem).2, s.trace ++ [.call name]⟩)

/-- The chunks written to `out`, in order. -/
def written : List Event → List String
  | [] => []
  | .Write p :: es => p :: written es
  | .call _ :: es => written es

/-- The steps called, in order. -/
def called : List Event → List Step
  | [] => []
  | .Write _ :: es => called es
  | .call f :: es => f :: called es

/-- The first raw string literal of the init-master `RunE`. -/
def caCertNotice : String :=
  "CA cert is written to XXX. Please scp this to all your nodes before running\n    kubeadm manual bootstrap node --ca-cert-file <path-to-ca-cert> --api-server-urls http://<ip-of-master>:8080/\n"

/-- The second raw string literal of the init-master `RunE`. -/
def masterSuccess : String :=
  "Static pods written and kubelet's kubeconfig written.\nKubelet should be able to start soon (try systemctl restart kubelet or equivalent if it doesn't).\nCA cert is written to XXX. Please scp this to all your nodes before running:\n    kubeadm manual bootstrap node --ca-cert-file <path-to-ca-cert> --api-server-urls http://<ip-of-master>:8080/\n"

/-- The raw string literal of the join-node `Run`. -/
def nodeSuccess : String :=
  "Kubelet started with given arguments, it should attempt TLS bootstrap now.\nRun 'kubectl get nodes' on the master to see it join.\n"

/-- The `RunE` closure of `NewCmdManualBootstrapInitMaster`. -/
def initMasterRunE {W : Type} (steps : Steps W) (s : State W) : Option GoError × State W :=
  match s.call .writeStaticPodManifests steps.writeStaticPodManifests with
  | (some err, s1) => (some err, s1)
  | (none, s1) =>
    match s1.call .generateAndWritePKIAndConfig steps.generateAndWritePKIAndConfig with
    | (some err, s2) => (some err, s2)
    | (none, s2) =>
      match (s2.Write caCertNotice).call .writeKubeconfigIfNotExists
          steps.writeKubeconfigIfNotExists with
      | (some err, s3) =>
        (none, s3.Write ("Unable to write config for master:\n" ++ err.Error ++ "\n"))
      | (none, s3) => (none, s3.Write masterSuccess)

/-- The `Run` closure of `NewCmdManualBootstrapJoinNode`; `discovery` is the variable
the closure captures. -/
def joinNodeRun {W : Type} (steps : Steps W) (discovery : Addr) (s : State W) : State W :=
  if (s.mem.heap.cells discovery).CaCertFile = "" then
    s.Write "Must specify --ca-cert-file (see --help)\n"
  else if (s.mem.heap.cells discovery).ApiServerURLs = "" then
    s.Write "Must specify --api-server-urls (see --help)\n"
  else
    match s.call .writeKubeconfigIfNotExists steps.writeKubeconfigIfNotExists with
    | (some err, s1) => s1.Write ("Unable to write config for node:\n" ++ err.Error ++ "\n")
    | (none, s1) => s1.Write nodeSuccess

/-- A flag made by pflag's `StringVarP(p, name, shorthand, value, usage)`: its name, the
variable it is bound to and its default value. -/
structure Flag where
  name : String
  p : StringVar
  value : String
deriving DecidableEq, Repr

/-- The call `cmd.PersistentFlags().StringVarP(p, name, shorthand, value, usage)`: pflag
stores the default in the variable and returns the flag bound to it. -/
def StringVarP (h : Heap) (p : StringVar) (name value : String) : Flag × Heap :=
  (⟨name, p, value⟩, h.store p value)

/-- The closures manual.go puts in the fields `Run` and `RunE` of its commands, with the
variables they capture besides `out` and `params`. -/
inductive RunFunc where
  | absent
  | empty
  | initMaster
  | joinNode (discovery : Addr)
deriving DecidableEq, Repr

/-- A `*cobra.Command` as manual.go builds it: `Use`, the run closure, the persistent
flags and the commands added with `AddCommand`. -/
inductive Command where
  | mk (Use : String) (Run : RunFunc) (PersistentFlags : List Flag) (commands : List Command)

/-- The field `Use`. -/
def Command.Use : Command → String
  | .mk u _ _ _ => u

/-- The run closure. -/
def Command.Run : Command → RunFunc
  | .mk _ r _ _ => r

/-- The flags registered on the command. -/
def Command.PersistentFlags : Command → List Flag
  | .mk _ _ fs _ => fs

/-- The commands added with `AddCommand`, in order. -/
def Command.commands : Command → List Command
  | .mk _ _ _ cs => cs

/-- The subcommand of the given name, as cobra finds it. -/
def Command.Find (c : Command) (name : String) : Option Command :=
  c.commands.find? (fun k => k.Use == name)

/-- The flag of the given name. -/
def Lookup (flags : List Flag) (name : String) : Option Flag :=
  flags.find? (fun f => f.name == name)

/-- The effect of `--name=value` on the command line: pflag assigns the value to the
variable the flag of that name is bound to; an unknown flag is an error. -/
def Set (flags : List Flag) (h : Heap) (name value : String) : Except GoError Heap :=
  match Lookup flags name with
  | none => .error ⟨"unknown flag: --" ++ name⟩
  | some f => .ok (h.store f.p value)

/-- Parsing the flags of a command line, left to right. -/
def ParseFlags (flags : List Flag) : List (String × String) → Heap → Except GoError Heap
  | [], h => .ok h
  | (name, value) :: args, h =>
    match Set flags h name value with
    | .error err => .error err
    | .ok h1 => ParseFlags flags args h1

/-- Running a run closure. -/
def RunFunc.run {W : Type} (steps : Steps W) (r : RunFunc) (s : State W) :
    Option GoError × State W :=
  match r with
  | .absent => (none, s)
  | .empty => (none, s)
  | .initMaster => initMasterRunE steps s
  | .joinNode discovery => (none, joinNodeRun steps discovery s)

/-- Executing a command with the given flags on the command line: cobra parses the
flags, then calls the run closure; a flag error ends the execution before that. -/
def Command.Execute {W : Type} (steps : Steps W) (c : Command)
    (args : List (String × String)) (s : State W) : Option GoError × State W :=
  match ParseFlags c.PersistentFlags args s.mem.heap with
  | .error err => (some err, s)
  | .ok h => c.Run.run steps ⟨⟨h, s.mem.params, s.mem.world⟩, s.trace⟩

/-- The function `NewCmdManualBootstrapInitMaster(out, params)`. -/
def NewCmdManualBootstrapInitMaster {W : Type} (m : Memory W) : Command × Memory W :=
  let a := m.heap.alloc ⟨"http://127.0.0.1:8080/", "", "", ""⟩
  let discovery := a.1
  let params : BootstrapParams := ⟨m.params.role, some discovery⟩
  let f := StringVarP a.2 ⟨discovery, .ApiServerDNSName⟩ "api-dns-name" ""
  (.mk "init-master" .initMaster [f.1] [], ⟨f.2, params, m.world⟩)

/-- The function `NewCmdManualBootstrapJoinNode(out, params)`. -/
def NewCmdManualBootstrapJoinNode {W : Type} (m : Memory W) : Command × Memory W :=
  let a := m.heap.alloc ⟨"", "", "", ""⟩
  let discovery := a.1
  let params : BootstrapParams := ⟨m.params.role, some discovery⟩
  let f1 := StringVarP a.2 ⟨discovery, .CaCertFile⟩ "ca-cert-file" ""
  let f2 := StringVarP f1.2 ⟨discovery, .ApiServerURLs⟩ "api-server-urls" ""
  let f3 := StringVarP f2.2 ⟨discovery, .ApiServerURLs⟩ "listen-ip" ""
  (.mk "join-node" (.joinNode discovery) [f1.1, f2.1, f3.1] [], ⟨f3.2, params, m.world⟩)

/-- The function `NewCmdManualBootstrap(out, params)`. -/
def NewCmdManualBootstrap {W : Type} (m : Memory W) : Command × Memory W :=
  let c1 := NewCmdManualBootstrapInitMaster m
  let c2 := NewCmdManualBootstrapJoinNode c1.2
  (.mk "bootstrap" .empty [] [c1.1, c2.1], c2.2)

/-- The function `NewCmdManual(out, params)`. -/
def NewCmdManual {W : Type} (m : Memory W) : Command × Memory W :=
  let c := NewCmdManualBootstrap m
  (.mk "manual" .absent [] [c.1], c.2)

/-- Provisioning steps with fixed outcomes, on a world with nothing in it. -/
def sampleSteps (r1 r2 r3 : Option GoError) : Steps Unit :=
  ⟨fun m => (r1, m), fun m => (r2, m), fun m => (r3, m)⟩

/-- A state in which every address holds the object `d`, before anything has run. -/
def sampleState (d : OutOfBandDiscovery) : State Unit :=
  ⟨⟨⟨fun _ => d, 1⟩, ⟨.Node, some 0⟩, ()⟩, []⟩

/-- A memory with no object allocated and `params.Discovery` still `nil`. -/
def sampleMemory : Memory Unit :=
  ⟨⟨fun _ => ⟨"", "", "", ""⟩, 0⟩, ⟨.Node, none⟩, ()⟩

end kubeadm

/-! ## Discovery -/

namespace kubelet

/-- The results of `Discover` when the read fails. -/
theorem Discover_of_read_error {C : Type} (parse : CertParser C) (o : OutOfBandDiscovery)
    (fs : FileSystem) (e : GoError) (h : fs o.CaCertFile = .error e) :
    (o.Discover parse fs).result = ⟨.stringSlice [], none, some e⟩ ∧
      (o.Discover parse fs).calls = [.ReadFile o.CaCertFile] := by
  simp [OutOfBandDiscovery.Discover, ioutil.ReadFile, h]

/-- The results of `Discover` when the read succeeds and the parse fails. -/
theorem Discover_of_parse_error {C : Type} (parse : CertParser C) (o : OutOfBandDiscovery)
    (fs : FileSystem) (b : Bytes) (e : GoError) (h : fs o.CaCertFile = .ok b)
    (hp : parse b = .error e) :
    (o.Discover parse fs).result = ⟨.stringSlice [], none, some e⟩ ∧
      (o.Discover parse fs).calls = [.ReadFile o.CaCertFile, .ParseCertificate b] := by
  simp [OutOfBandDiscovery.Discover, ioutil.ReadFile, h, hp]

/-- The results of `Discover` when the read and the parse succeed. -/
theorem Discover_of_ok {C : Type} (parse : CertParser C) (o : OutOfBandDiscovery)
    (fs : FileSystem) (b : Bytes) (c : C) (h : fs o.CaCertFile = .ok b)
    (hp : parse b = .ok c) :
    (o.Discover parse fs).result = ⟨.string o.ApiServerURLs, some c, none⟩ ∧
      (o.Discover parse fs).calls = [.ReadFile o.CaCertFile, .ParseCertificate b] := by
  simp [OutOfBandDiscovery.Discover, ioutil.ReadFile, h, hp]

/-- `Discover` returns the receiver and the filesystem as it found them. -/
theorem Discover_frame {C : Type} (parse : CertParser C) (o : OutOfBandDiscovery)
    (fs : FileSystem) :
    (o.Discover parse fs).o = o ∧ (o.Discover parse fs).fs = fs := by
  rcases h : fs o.CaCertFile with e | b
  · simp [OutOfBandDiscovery.Discover, ioutil.ReadFile, h]
  · rcases hp : parse b with e | c <;>
      simp [OutOfBandDiscovery.Discover, ioutil.ReadFile, h, hp]

/-- C4, evaluated on the code: for the discovery with `ApiServerURLs` equal to
`"https://10.0.0.1:6443/,https://10.0.0.2:6443/"` and a CA file that is read and parsed,
`Discover` returns the field as it is, one string with the comma in it, where the
claimed endpoint sequence is the two URLs. -/
theorem C4_Discover_returns_field_unsplit :
    ((sampleDiscovery "/tmp/ca.der").Discover sampleParser sampleFS).result
        = ⟨.string "https://10.0.0.1:6443/,https://10.0.0.2:6443/",
            some [48, 130, 1, 10], none⟩ ∧
      specEndpoints (sampleDiscovery "/tmp/ca.der").ApiServerURLs
        = ["https://10.0.0.1:6443/", "https://10.0.0.2:6443/"] ∧
      ((sampleDiscovery "/tmp/ca.der").Discover sampleParser sampleFS).result.apiServerUrls
        ≠ .stringSlice (specEndpoints (sampleDiscovery "/tmp/ca.der").ApiServerURLs) := by
  refine ⟨?_, ?_, ?_⟩
  · exact (Discover_of_ok sampleParser (sampleDiscovery "/tmp/ca.der") sampleFS
      [48, 130, 1, 10] [48, 130, 1, 10] (by rfl) (by rfl)).1
  · decide
  · rw [(Discover_of_ok sampleParser (sampleDiscovery "/tmp/ca.der") sampleFS
      [48, 130, 1, 10] [48, 130, 1, 10] (by rfl) (by rfl)).1]
    exact fun h => GoValue.noConfusion h

/-- C5: `Discover` returns an error exactly when reading `CaCertFile` fails or parsing
the bytes read fails. A failed read returns the read error, an empty endpoint slice and
no certificate, and the parser is not called; a failed parse returns the parse error, an
empty endpoint slice and no certificate; on success the certificate is the result of the
parser on the bytes as they were read. -/
theorem C5_Discover_error_cases {C : Type} (parse : CertParser C) (o : OutOfBandDiscovery)
    (fs : FileSystem) :
    ((o.Discover parse fs).result.err ≠ none ↔
        ((∃ e, fs o.CaCertFile = .error e) ∨
          ∃ b e, fs o.CaCertFile = .ok b ∧ parse b = .error e)) ∧
      (∀ e, fs o.CaCertFile = .error e →
        (o.Discover parse fs).result = ⟨.stringSlice [], none, some e⟩ ∧
          (o.Discover parse fs).calls = [.ReadFile o.CaCertFile]) ∧
      (∀ b e, fs o.CaCertFile = .ok b → parse b = .error e →
        (o.Discover parse fs).result = ⟨.stringSlice [], none, some e⟩ ∧
          (o.Discover parse fs).calls = [.ReadFile o.CaCertFile, .ParseCertificate b]) ∧
      (∀ b c, fs o.CaCertFile = .ok b → parse b = .ok c →
        (o.Discover parse fs).result.caCert = some c ∧
          (o.Discover parse fs).result.err = none ∧
          (o.Discover parse fs).calls = [.ReadFile o.CaCertFile, .ParseCertificate b]) := by
  refine ⟨?_, fun e h => Discover_of_read_error parse o fs e h,
    fun b e h hp => Discover_of_parse_error parse o fs b e h hp, ?_⟩
  · rcases h : fs o.CaCertFile with e | b
    · simp [(Discover_of_read_error parse o fs e h).1]
    · rcases hp : parse b with e | c
      · simp [(Discover_of_parse_error parse o fs b e h hp).1, hp]
      · simp [(Discover_of_ok parse o fs b c h hp).1, hp]
  · intro b c h hp
    have hr := Discover_of_ok parse o fs b c h hp
    simp [hr.1, hr.2]

/-- C5 on the sample filesystem: a missing file, a file that does not parse, and a
certificate file. -/
theorem C5_Discover_error_cases_witness :
    (((sampleDiscovery "/tmp/none").Discover sampleParser sampleFS).result
        = ⟨.stringSlice [], none, some ⟨"open /tmp/none: no such file or directory"⟩⟩ ∧
      ((sampleDiscovery "/tmp/none").Discover sampleParser sampleFS).calls
        = [.ReadFile "/tmp/none"]) ∧
    (((sampleDiscovery "/tmp/notes.txt").Discover sampleParser sampleFS).result
        = ⟨.stringSlice [], none, some ⟨"asn1: structure error"⟩⟩ ∧
      ((sampleDiscovery "/tmp/notes.txt").Discover sampleParser sampleFS).calls
        = [.ReadFile "/tmp/notes.txt", .ParseCertificate [104, 105]]) ∧
    (((sampleDiscovery "/tmp/ca.der").Discover sampleParser sampleFS).result.caCert
        = some [48, 130, 1, 10] ∧
      ((sampleDiscovery "/tmp/ca.der").Discover sampleParser sampleFS).result.err = none ∧
      ((sampleDiscovery "/tmp/ca.der").Discover sampleParser sampleFS).calls
        = [.ReadFile "/tmp/ca.der", .ParseCertificate [48, 130, 1, 10]]) :=
  ⟨(C5_Discover_error_cases sampleParser (sampleDiscovery "/tmp/none") sampleFS).2.1
      ⟨"open /tmp/none: no such file or directory"⟩ (by rfl),
    (C5_Discover_error_cases sampleParser (sampleDiscovery "/tmp/notes.txt") sampleFS).2.2.1
      [104, 105] ⟨"asn1: structure error"⟩ (by rfl) (by rfl),
    (C5_Discover_error_cases sampleParser (sampleDiscovery "/tmp/ca.der") sampleFS).2.2.2
      [48, 130, 1, 10] [48, 130, 1, 10] (by rfl) (by rfl)⟩

/-- C6 as stated fails: on a `GossipDiscovery` value there is no `Discover` to call, so
no call returns an error, `NotImplemented` or other. -/
theorem C6_gossip_Discover_counterexample :
    ¬ ∃ out : DiscoverOutcome Bytes,
      DiscoveryValue.callDiscover sampleParser
          (.gossip ⟨⟨"v1alpha1", "node"⟩, "abcdef.0123456789abcdef", "10.0.0.3"⟩) sampleFS
        = some out ∧ out.result.err ≠ none := by
  rintro ⟨out, h, -⟩
  simp [DiscoveryValue.callDiscover] at h

/-- C6 as amended: `GossipDiscovery` declares no method, it does not satisfy the
interface `Discovery` (which `OutOfBandDiscovery` does), and `Discover()` on any of its
values is no call at all: nothing is returned, neither an error nor a result, and no
file is read. -/
theorem C6_gossip_declares_no_Discover {C : Type} (parse : CertParser C)
    (g : GossipDiscovery) (fs : FileSystem) :
    methodSet .GossipDiscovery = [] ∧
      implementsDiscovery .GossipDiscovery = false ∧
      implementsDiscovery .OutOfBandDiscovery = true ∧
      (DiscoveryValue.gossip g).typeName = .GossipDiscovery ∧
      DiscoveryValue.callDiscover parse (.gossip g) fs = none :=
  ⟨rfl, by decide, by decide, rfl, rfl⟩

/-- C7: a second call of `Discover`, on the receiver and the filesystem the first call
left, returns the same endpoints, certificate and error as the first; and the first call
leaves the receiver and the filesystem as they were. -/
theorem C7_Discover_deterministic {C : Type} (parse : CertParser C)
    (o : OutOfBandDiscovery) (fs : FileSystem) :
    ((o.Discover parse fs).o.Discover parse (o.Discover parse fs).fs).result
        = (o.Discover parse fs).result ∧
      (o.Discover parse fs).o = o ∧
      (o.Discover parse fs).fs = fs := by
  have h := Discover_frame parse o fs
  exact ⟨by rw [h.1, h.2], h.1, h.2⟩

end kubelet

/-! ## Manual bootstrap -/

namespace kubeadm

/-- The chunks written by two traces in a row. -/
theorem written_append (t u : List Event) : written (t ++ u) = written t ++ written u := by
  induction t with
  | nil => rfl
  | cons ev t ih => cases ev <;> simp [written, ih]

/-- The steps called by two traces in a row. -/
theorem called_append (t u : List Event) : called (t ++ u) = called t ++ called u := by
  induction t with
  | nil => rfl
  | cons ev t ih => cases ev <;> simp [called, ih]

/-- The warning of the init-master run is never its success message. -/
theorem masterWarning_ne_masterSuccess (e : String) :
    "Unable to write config for master:\n" ++ e ++ "\n" ≠ masterSuccess := by
  intro h
  cases e with
  | mk cs =>
    have hd : some 'U' = some 'S' := congrArg (fun t => t.data.head?) h
    simp at hd

/-- The warning of the join-node run is never its success message. -/
theorem nodeWarning_ne_nodeSuccess (e : String) :
    "Unable to write config for node:\n" ++ e ++ "\n" ≠ nodeSuccess := by
  intro h
  cases e with
  | mk cs =>
    have hd : some 'U' = some 'K' := congrArg (fun t => t.data.head?) h
    simp at hd

/-- The join-node run with both fields present and a kubeconfig write that succeeds. -/
theorem joinNodeRun_of_ok {W : Type} (steps : Steps W) (discovery : Addr) (s : State W)
    (hc : (s.mem.heap.cells discovery).CaCertFile ≠ "")
    (hu : (s.mem.heap.cells discovery).ApiServerURLs ≠ "")
    (h : (steps.writeKubeconfigIfNotExists s.mem).1 = none) :
    joinNodeRun steps discovery s
      = ⟨(steps.writeKubeconfigIfNotExists s.mem).2,
          s.trace ++ [.call .writeKubeconfigIfNotExists, .Write nodeSuccess]⟩ := by
  simp [joinNodeRun, State.call, State.Write, hc, hu, h]

/-- The join-node run with both fields present and a kubeconfig write that fails. -/
theorem joinNodeRun_of_error {W : Type} (steps : Steps W) (discovery : Addr) (s : State W)
    (hc : (s.mem.heap.cells discovery).CaCertFile ≠ "")
    (hu : (s.mem.heap.cells discovery).ApiServerURLs ≠ "") (e : GoError)
    (h : (steps.writeKubeconfigIfNotExists s.mem).1 = some e) :
    joinNodeRun steps discovery s
      = ⟨(steps.writeKubeconfigIfNotExists s.mem).2,
          s.trace ++ [.call .writeKubeconfigIfNotExists,
            .Write ("Unable to write config for node:\n" ++ e.Error ++ "\n")]⟩ := by
  simp [joinNodeRun, State.call, State.Write, hc, hu, h]

/-- Assigning a field other than `ListenIP` leaves `ListenIP` as it was. -/
theorem set_ListenIP (d : OutOfBandDiscovery) (f : Field) (v : String)
    (hf : f ≠ .ListenIP) : (d.set f v).ListenIP = d.ListenIP := by
  cases f <;> simp_all [OutOfBandDiscovery.set]

/-- With no flag bound to `ListenIP`, setting a flag leaves every `ListenIP` as it was. -/
theorem Set_ListenIP (flags : List Flag) (hno : ∀ f ∈ flags, f.p.field ≠ .ListenIP)
    (h h1 : Heap) (name value : String) (hs : Set flags h name value = .ok h1) (a : Addr) :
    (h1.cells a).ListenIP = (h.cells a).ListenIP := by
  unfold Set at hs
  rcases hl : Lookup flags name with _ | f
  · simp [hl] at hs
  · simp only [hl, Except.ok.injEq] at hs
    have hf : f ∈ flags := List.mem_of_find?_eq_some hl
    subst hs
    by_cases ha : a = f.p.discovery
    · simp [Heap.store, ha, set_ListenIP _ _ _ (hno f hf)]
    · simp [Heap.store, ha]

/-- With no flag bound to `ListenIP`, no command line changes a `ListenIP`. -/
theorem ParseFlags_ListenIP (flags : List Flag) (hno : ∀ f ∈ flags, f.p.field ≠ .ListenIP)
    (args : List (String × String)) :
    ∀ h h1 : Heap, ParseFlags flags args h = .ok h1 →
      ∀ a, (h1.cells a).ListenIP = (h.cells a).ListenIP := by
  induction args with
  | nil =>
    intro h h1 hp a
    simp only [ParseFlags, Except.ok.injEq] at hp
    rw [hp]
  | cons x args ih =>
    intro h h1 hp a
    obtain ⟨name, value⟩ := x
    simp only [ParseFlags] at hp
    rcases hs : Set flags h name value with e | h0
    · simp [hs] at hp
    · simp only [hs] at hp
      rw [ih h0 h1 hp a, Set_ListenIP flags hno h h0 name value hs a]

/-- C1: in the init-master `RunE`, if `writeStaticPodManifests` returns an error `e`
then `RunE` returns `e` and has called that step only; if it succeeds and
`generateAndWritePKIAndConfig` returns an error `e` then `RunE` returns `e` and has
called these two steps only. In both cases `writeKubeconfigIfNotExists` is not called
and nothing is written to `out`. -/
theorem C1_initMaster_aborts_on_fatal_step {W : Type} (steps : Steps W) (s : State W) :
    (∀ e, (steps.writeStaticPodManifests s.mem).1 = some e →
      (initMasterRunE steps s).1 = some e ∧
        (initMasterRunE steps s).2.trace = s.trace ++ [.call .writeStaticPodManifests] ∧
        called (initMasterRunE steps s).2.trace
          = called s.trace ++ [.writeStaticPodManifests] ∧
        written (initMasterRunE steps s).2.trace = written s.trace) ∧
    (∀ e, (steps.writeStaticPodManifests s.mem).1 = none →
      (steps.generateAndWritePKIAndConfig (steps.writeStaticPodManifests s.mem).2).1
        = some e →
      (initMasterRunE steps s).1 = some e ∧
        (initMasterRunE steps s).2.trace
          = s.trace ++ [.call .writeStaticPodManifests, .call .generateAndWritePKIAndConfig] ∧
        called (initMasterRunE steps s).2.trace
          = called s.trace ++ [.writeStaticPodManifests, .generateAndWritePKIAndConfig] ∧
        written (initMasterRunE steps s).2.trace = written s.trace) := by
  constructor
  · intro e h1
    have ht : initMasterRunE steps s
        = (some e, ⟨(steps.writeStaticPodManifests s.mem).2,
            s.trace ++ [.call .writeStaticPodManifests]⟩) := by
      simp [initMasterRunE, State.call, h1]
    simp [ht, called_append, written_append, called, written]
  · intro e h1 h2
    have ht : initMasterRunE steps s
        = (some e, ⟨(steps.generateAndWritePKIAndConfig
              (steps.writeStaticPodManifests s.mem).2).2,
            s.trace ++ [.call .writeStaticPodManifests,
              .call .generateAndWritePKIAndConfig]⟩) := by
      simp [initMasterRunE, State.call, h1, h2]
    simp [ht, called_append, written_append, called, written]

/-- C1 with steps of fixed outcomes: the manifests fail with "disk full"; the manifests
are written and the PKI fails with "disk full". -/
theorem C1_initMaster_aborts_on_fatal_step_witness :
    ((initMasterRunE (sampleSteps (some ⟨"disk full"⟩) none none)
          (sampleState ⟨"", "", "", ""⟩)).1 = some ⟨"disk full"⟩ ∧
      (initMasterRunE (sampleSteps (some ⟨"disk full"⟩) none none)
          (sampleState ⟨"", "", "", ""⟩)).2.trace = [.call .writeStaticPodManifests]) ∧
    ((initMasterRunE (sampleSteps none (some ⟨"disk full"⟩) none)
          (sampleState ⟨"", "", "", ""⟩)).1 = some ⟨"disk full"⟩ ∧
      (initMasterRunE (sampleSteps none (some ⟨"disk full"⟩) none)
          (sampleState ⟨"", "", "", ""⟩)).2.trace
        = [.call .writeStaticPodManifests, .call .generateAndWritePKIAndConfig]) := by
  have h1 := (C1_initMaster_aborts_on_fatal_step (sampleSteps (some ⟨"disk full"⟩) none none)
    (sampleState ⟨"", "", "", ""⟩)).1 ⟨"disk full"⟩ rfl
  have h2 := (C1_initMaster_aborts_on_fatal_step (sampleSteps none (some ⟨"disk full"⟩) none)
    (sampleState ⟨"", "", "", ""⟩)).2 ⟨"disk full"⟩ rfl rfl
  exact ⟨⟨h1.1, h1.2.1⟩, ⟨h2.1, h2.2.1⟩⟩

/-- C2: in the join-node `Run`, when the discovery has an empty `CaCertFile` or an empty
`ApiServerURLs`, the run writes one message and does nothing else: the message names
`--ca-cert-file` when `CaCertFile` is empty and `--api-server-urls` otherwise, no step
is called, and the memory and the world are as before. -/
theorem C2_joinNode_missing_field {W : Type} (steps : Steps W) (discovery : Addr)
    (s : State W)
    (h : (s.mem.heap.cells discovery).CaCertFile = "" ∨
      (s.mem.heap.cells discovery).ApiServerURLs = "") :
    (joinNodeRun steps discovery s).trace
        = s.trace ++ [.Write (if (s.mem.heap.cells discovery).CaCertFile = ""
            then "Must specify --ca-cert-file (see --help)\n"
            else "Must specify --api-server-urls (see --help)\n")] ∧
      called (joinNodeRun steps discovery s).trace = called s.trace ∧
      (joinNodeRun steps discovery s).mem = s.mem := by
  by_cases hc : (s.mem.heap.cells discovery).CaCertFile = ""
  · have ht : joinNodeRun steps discovery s
        = s.Write "Must specify --ca-cert-file (see --help)\n" := by
      simp [joinNodeRun, hc]
    simp [ht, hc, State.Write, called_append, called]
  · have hu : (s.mem.heap.cells discovery).ApiServerURLs = "" := h.resolve_left hc
    have ht : joinNodeRun steps discovery s
        = s.Write "Must specify --api-server-urls (see --help)\n" := by
      simp [joinNodeRun, hc, hu]
    simp [ht, hc, State.Write, called_append, called]

/-- C2 on a discovery with URLs and no CA file, with steps that would succeed. -/
theorem C2_joinNode_missing_field_witness :
    (joinNodeRun (sampleSteps none none none) 0
        (sampleState ⟨"https://10.0.0.1:6443/", "", "", ""⟩)).trace
      = [.Write "Must specify --ca-cert-file (see --help)\n"] :=
  (C2_joinNode_missing_field (sampleSteps none none none) 0
    (sampleState ⟨"https://10.0.0.1:6443/", "", "", ""⟩) (Or.inl rfl)).1

/-- C3: in the init-master `RunE`, when `writeStaticPodManifests` and
`generateAndWritePKIAndConfig` succeed and `writeKubeconfigIfNotExists` returns an error
`e`, `RunE` returns `nil`, and what is written to `out` is the CA-cert notice and then
"Unable to write config for master:", the text of `e` and a newline; the success message
is not among the chunks written. -/
theorem C3_initMaster_kubeconfig_failure_is_warning {W : Type} (steps : Steps W)
    (s : State W) (e : GoError)
    (h1 : (steps.writeStaticPodManifests s.mem).1 = none)
    (h2 : (steps.generateAndWritePKIAndConfig (steps.writeStaticPodManifests s.mem).2).1
      = none)
    (h3 : (steps.writeKubeconfigIfNotExists (steps.generateAndWritePKIAndConfig
      (steps.writeStaticPodManifests s.mem).2).2).1 = some e) :
    (initMasterRunE steps s).1 = none ∧
      (initMasterRunE steps s).2.trace
        = s.trace ++ [.call .writeStaticPodManifests, .call .generateAndWritePKIAndConfig,
            .Write caCertNotice, .call .writeKubeconfigIfNotExists,
            .Write ("Unable to write config for master:\n" ++ e.Error ++ "\n")] ∧
      written (initMasterRunE steps s).2.trace
        = written s.trace
          ++ [caCertNotice, "Unable to write config for master:\n" ++ e.Error ++ "\n"] ∧
      masterSuccess ∉ [caCertNotice, "Unable to write config for master:\n" ++ e.Error ++ "\n"]
      := by
  have ht : initMasterRunE steps s
      = (none, ⟨(steps.writeKubeconfigIfNotExists (steps.generateAndWritePKIAndConfig
            (steps.writeStaticPodManifests s.mem).2).2).2,
          s.trace ++ [.call .writeStaticPodManifests, .call .generateAndWritePKIAndConfig,
            .Write caCertNotice, .call .writeKubeconfigIfNotExists,
            .Write ("Unable to write config for master:\n" ++ e.Error ++ "\n")]⟩) := by
    simp [initMasterRunE, State.call, State.Write, h1, h2, h3]
  refine ⟨by rw [ht], by rw [ht], by simp [ht, written_append, written], ?_⟩
  intro hm
  rcases List.mem_cons.1 hm with hm | hm
  · exact absurd hm (by decide)
  · exact masterWarning_ne_masterSuccess e.Error (List.mem_singleton.1 hm).symm

/-- C3 with steps of fixed outcomes: the kubeconfig write fails with "permission
denied". -/
theorem C3_initMaster_kubeconfig_failure_is_warning_witness :
    (initMasterRunE (sampleSteps none none (some ⟨"permission denied"⟩))
        (sampleState ⟨"", "", "", ""⟩)).1 = none ∧
      written (initMasterRunE (sampleSteps none none (some ⟨"permission denied"⟩))
        (sampleState ⟨"", "", "", ""⟩)).2.trace
        = [caCertNotice, "Unable to write config for master:\npermission denied\n"] := by
  have h := C3_initMaster_kubeconfig_failure_is_warning
    (sampleSteps none none (some ⟨"permission denied"⟩)) (sampleState ⟨"", "", "", ""⟩)
    ⟨"permission denied"⟩ rfl rfl rfl
  exact ⟨h.1, h.2.2.1⟩

/-- C8: in the join-node `Run`, when the discovery has a non-empty `CaCertFile` and a
non-empty `ApiServerURLs`, `writeKubeconfigIfNotExists` is called once and no other step
is; if it returns `nil` the run writes the success message and nothing else, and if it
returns an error `e` the run writes "Unable to write config for node:", the text of `e`
and a newline and nothing else, which is not the success message. -/
theorem C8_joinNode_writes_kubeconfig {W : Type} (steps : Steps W) (discovery : Addr)
    (s : State W) (hc : (s.mem.heap.cells discovery).CaCertFile ≠ "")
    (hu : (s.mem.heap.cells discovery).ApiServerURLs ≠ "") :
    called (joinNodeRun steps discovery s).trace
        = called s.trace ++ [.writeKubeconfigIfNotExists] ∧
      ((steps.writeKubeconfigIfNotExists s.mem).1 = none →
        (joinNodeRun steps discovery s).trace
            = s.trace ++ [.call .writeKubeconfigIfNotExists, .Write nodeSuccess] ∧
          written (joinNodeRun steps discovery s).trace
            = written s.trace ++ [nodeSuccess]) ∧
      (∀ e, (steps.writeKubeconfigIfNotExists s.mem).1 = some e →
        (joinNodeRun steps discovery s).trace
            = s.trace ++ [.call .writeKubeconfigIfNotExists,
                .Write ("Unable to write config for node:\n" ++ e.Error ++ "\n")] ∧
          written (joinNodeRun steps discovery s).trace
            = written s.trace ++ ["Unable to write config for node:\n" ++ e.Error ++ "\n"] ∧
          "Unable to write config for node:\n" ++ e.Error ++ "\n" ≠ nodeSuccess) := by
  have ok := joinNodeRun_of_ok steps discovery s hc hu
  have ko := joinNodeRun_of_error steps discovery s hc hu
  refine ⟨?_, ?_, ?_⟩
  · rcases h : (steps.writeKubeconfigIfNotExists s.mem).1 with _ | e
    · simp [ok h, called_append, called]
    · simp [ko e h, called_append, called]
  · intro h
    simp [ok h, written_append, written]
  · intro e h
    exact ⟨by rw [ko e h], by simp [ko e h, written_append, written],
      nodeWarning_ne_nodeSuccess e.Error⟩

/-- C8 on a discovery with a CA file and two URLs: once with a kubeconfig write that
succeeds, once with one that fails with "permission denied". -/
theorem C8_joinNode_writes_kubeconfig_witness :
    (joinNodeRun (sampleSteps none none none) 0
        (sampleState ⟨"https://10.0.0.1:6443/,https://10.0.0.2:6443/", "/tmp/ca.der", "", ""⟩)).trace
        = [.call .writeKubeconfigIfNotExists, .Write nodeSuccess] ∧
      (joinNodeRun (sampleSteps none none (some ⟨"permission denied"⟩)) 0
        (sampleState ⟨"https://10.0.0.1:6443/,https://10.0.0.2:6443/", "/tmp/ca.der", "", ""⟩)).trace
        = [.call .writeKubeconfigIfNotExists,
            .Write "Unable to write config for node:\npermission denied\n"] :=
  ⟨((C8_joinNode_writes_kubeconfig (sampleSteps none none none) 0
      (sampleState ⟨"https://10.0.0.1:6443/,https://10.0.0.2:6443/", "/tmp/ca.der", "", ""⟩)
      (by decide) (by decide)).2.1 rfl).1,
    ((C8_joinNode_writes_kubeconfig (sampleSteps none none (some ⟨"permission denied"⟩)) 0
      (sampleState ⟨"https://10.0.0.1:6443/,https://10.0.0.2:6443/", "/tmp/ca.der", "", ""⟩)
      (by decide) (by decide)).2.2 ⟨"permission denied"⟩ rfl).1⟩

/-- C9: on the command `NewCmdManualBootstrapJoinNode` builds, `--listen-ip=v` assigns
`v` to the `ApiServerURLs` of the command's discovery and leaves its `ListenIP` as it
was; no flag of the command is bound to `ListenIP`, and no command line changes the
`ListenIP` of any object. So a run with a non-empty `--ca-cert-file` and a non-empty
`--listen-ip` and nothing else reaches the `Run` closure with `ApiServerURLs` equal to
the listen IP, calls `writeKubeconfigIfNotExists`, and writes the success message or the
warning of the kubeconfig write, not a missing-flag message. -/
theorem C9_joinNode_listen_ip_bound_to_ApiServerURLs {W : Type} (steps : Steps W)
    (m : Memory W) (c v : String) (hc : c ≠ "") (hv : v ≠ "") :
    (NewCmdManualBootstrapJoinNode m).1.Run = .joinNode m.heap.next ∧
      (∀ h : Heap, ∃ h1,
        Set (NewCmdManualBootstrapJoinNode m).1.PersistentFlags h "listen-ip" v = .ok h1 ∧
          (h1.cells m.heap.next).ApiServerURLs = v ∧
          (h1.cells m.heap.next).ListenIP = (h.cells m.heap.next).ListenIP) ∧
      (∀ f ∈ (NewCmdManualBootstrapJoinNode m).1.PersistentFlags, f.p.field ≠ .ListenIP) ∧
      (∀ (args : List (String × String)) (h h1 : Heap),
        ParseFlags (NewCmdManualBootstrapJoinNode m).1.PersistentFlags args h = .ok h1 →
          ∀ a, (h1.cells a).ListenIP = (h.cells a).ListenIP) ∧
      (∃ h2, ParseFlags (NewCmdManualBootstrapJoinNode m).1.PersistentFlags
            [("ca-cert-file", c), ("listen-ip", v)] (NewCmdManualBootstrapJoinNode m).2.heap
          = .ok h2 ∧ h2.cells m.heap.next = ⟨v, c, "", ""⟩) ∧
      called ((NewCmdManualBootstrapJoinNode m).1.Execute steps
          [("ca-cert-file", c), ("listen-ip", v)]
          ⟨(NewCmdManualBootstrapJoinNode m).2, []⟩).2.trace
        = [.writeKubeconfigIfNotExists] ∧
      (written ((NewCmdManualBootstrapJoinNode m).1.Execute steps
            [("ca-cert-file", c), ("listen-ip", v)]
            ⟨(NewCmdManualBootstrapJoinNode m).2, []⟩).2.trace = [nodeSuccess] ∨
        ∃ e : GoError, written ((NewCmdManualBootstrapJoinNode m).1.Execute steps
            [("ca-cert-file", c), ("listen-ip", v)]
            ⟨(NewCmdManualBootstrapJoinNode m).2, []⟩).2.trace
          = ["Unable to write config for node:\n" ++ e.Error ++ "\n"]) := by
  have hflags : (NewCmdManualBootstrapJoinNode m).1.PersistentFlags
      = [⟨"ca-cert-file", ⟨m.heap.next, .CaCertFile⟩, ""⟩,
          ⟨"api-server-urls", ⟨m.heap.next, .ApiServerURLs⟩, ""⟩,
          ⟨"listen-ip", ⟨m.heap.next, .ApiServerURLs⟩, ""⟩] := rfl
  have hno : ∀ f ∈ (NewCmdManualBootstrapJoinNode m).1.PersistentFlags,
      f.p.field ≠ .ListenIP := by
    rw [hflags]; simp
  have hparse : ∃ h2, ParseFlags (NewCmdManualBootstrapJoinNode m).1.PersistentFlags
        [("ca-cert-file", c), ("listen-ip", v)] (NewCmdManualBootstrapJoinNode m).2.heap
      = .ok h2 ∧ h2.cells m.heap.next = ⟨v, c, "", ""⟩ := by
    refine ⟨_, by simp [hflags, ParseFlags, Set, Lookup]; rfl, ?_⟩
    simp [NewCmdManualBootstrapJoinNode, StringVarP, Heap.alloc, Heap.store,
      OutOfBandDiscovery.set]
  refine ⟨rfl, ?_, hno, fun args => ParseFlags_ListenIP _ hno args, hparse, ?_⟩
  · intro h
    refine ⟨h.store ⟨m.heap.next, .ApiServerURLs⟩ v, by simp [hflags, Set, Lookup], ?_⟩
    simp [Heap.store, OutOfBandDiscovery.set]
  · obtain ⟨h2, hp, hcell⟩ := hparse
    have hrun : (NewCmdManualBootstrapJoinNode m).1.Execute steps
        [("ca-cert-file", c), ("listen-ip", v)] ⟨(NewCmdManualBootstrapJoinNode m).2, []⟩
        = (none, joinNodeRun steps m.heap.next
            ⟨⟨h2, (NewCmdManualBootstrapJoinNode m).2.params,
              (NewCmdManualBootstrapJoinNode m).2.world⟩, []⟩) := by
      simp only [Command.Execute, hp]
      rfl
    have hcf : ((⟨⟨h2, (NewCmdManualBootstrapJoinNode m).2.params,
        (NewCmdManualBootstrapJoinNode m).2.world⟩, []⟩ : State W).mem.heap.cells
          m.heap.next).CaCertFile ≠ "" := by
      simpa [hcell] using hc
    have hurl : ((⟨⟨h2, (NewCmdManualBootstrapJoinNode m).2.params,
        (NewCmdManualBootstrapJoinNode m).2.world⟩, []⟩ : State W).mem.heap.cells
          m.heap.next).ApiServerURLs ≠ "" := by
      simpa [hcell] using hv
    rw [hrun]
    rcases ho : (steps.writeKubeconfigIfNotExists
        ⟨h2, (NewCmdManualBootstrapJoinNode m).2.params,
          (NewCmdManualBootstrapJoinNode m).2.world⟩).1 with _ | e
    · rw [joinNodeRun_of_ok steps _ _ hcf hurl ho]
      exact ⟨rfl, Or.inl rfl⟩
    · rw [joinNodeRun_of_error steps _ _ hcf hurl e ho]
      exact ⟨rfl, Or.inr ⟨e, rfl⟩⟩

/-- C9 on a fresh memory: join-node with `--ca-cert-file=/tmp/ca.der` and
`--listen-ip=10.0.0.5` calls `writeKubeconfigIfNotExists`. -/
theorem C9_joinNode_listen_ip_bound_to_ApiServerURLs_witness :
    called ((NewCmdManualBootstrapJoinNode sampleMemory).1.Execute
        (sampleSteps none none none) [("ca-cert-file", "/tmp/ca.der"), ("listen-ip", "10.0.0.5")]
        ⟨(NewCmdManualBootstrapJoinNode sampleMemory).2, []⟩).2.trace
      = [.writeKubeconfigIfNotExists] :=
  (C9_joinNode_listen_ip_bound_to_ApiServerURLs (sampleSteps none none none) sampleMemory
    "/tmp/ca.der" "10.0.0.5" (by decide) (by decide)).2.2.2.2.2.1

/-- C10, evaluated on the code: after `NewCmdManualBootstrap(out, params)` the command
`init-master` is the first subcommand and its flag `--api-dns-name` is bound to the
object allocated first, the one with `ApiServerURLs` equal to "http://127.0.0.1:8080/";
but `params.Discovery` is the address of the object allocated second, by
`NewCmdManualBootstrapJoinNode`, whose fields are all empty. With no flag on the command
line the `RunE` closure starts on that very memory, and `--api-dns-name=v` changes the
first object and not the one `params.Discovery` points to. -/
theorem C10_params_hold_joinNode_discovery {W : Type} (m : Memory W) :
    (NewCmdManualBootstrap m).1.Find "init-master"
        = some (.mk "init-master" .initMaster
            [⟨"api-dns-name", ⟨m.heap.next, .ApiServerDNSName⟩, ""⟩] []) ∧
      ParseFlags [⟨"api-dns-name", ⟨m.heap.next, .ApiServerDNSName⟩, ""⟩] []
          (NewCmdManualBootstrap m).2.heap = .ok (NewCmdManualBootstrap m).2.heap ∧
      (∀ steps : Steps W,
        (Command.mk "init-master" .initMaster
            [⟨"api-dns-name", ⟨m.heap.next, .ApiServerDNSName⟩, ""⟩] []).Execute steps []
            ⟨(NewCmdManualBootstrap m).2, []⟩
          = initMasterRunE steps ⟨(NewCmdManualBootstrap m).2, []⟩) ∧
      (NewCmdManualBootstrap m).2.params.Discovery = some (m.heap.next + 1) ∧
      (NewCmdManualBootstrap m).2.discovery = some ⟨"", "", "", ""⟩ ∧
      (NewCmdManualBootstrap m).2.heap.cells m.heap.next
        = ⟨"http://127.0.0.1:8080/", "", "", ""⟩ ∧
      (∀ v : String, ∃ h1,
        ParseFlags [⟨"api-dns-name", ⟨m.heap.next, .ApiServerDNSName⟩, ""⟩]
            [("api-dns-name", v)] (NewCmdManualBootstrap m).2.heap = .ok h1 ∧
          h1.cells m.heap.next = ⟨"http://127.0.0.1:8080/", "", v, ""⟩ ∧
          h1.cells (m.heap.next + 1) = ⟨"", "", "", ""⟩) := by
  refine ⟨?_, rfl, fun _ => rfl, rfl, ?_, ?_, ?_⟩
  · simp [NewCmdManualBootstrap, Command.Find, Command.commands, Command.Use,
      NewCmdManualBootstrapInitMaster, NewCmdManualBootstrapJoinNode, StringVarP,
      Heap.alloc]
  · simp [Memory.discovery, NewCmdManualBootstrap, NewCmdManualBootstrapInitMaster,
      NewCmdManualBootstrapJoinNode, StringVarP, Heap.alloc, Heap.store,
      OutOfBandDiscovery.set]
  · simp [NewCmdManualBootstrap, NewCmdManualBootstrapInitMaster,
      NewCmdManualBootstrapJoinNode, StringVarP, Heap.alloc, Heap.store,
      OutOfBandDiscovery.set]
  · intro v
    refine ⟨_, by simp [ParseFlags, Set, Lookup]; rfl, ?_, ?_⟩ <;>
      simp [NewCmdManualBootstrap, NewCmdManualBootstrapInitMaster,
        NewCmdManualBootstrapJoinNode, StringVarP, Heap.alloc, Heap.store,
        OutOfBandDiscovery.set]

end kubeadm
